import Mathlib

/-!
Shallow embedding of the SSRF-hardened URL fetcher of
`src/app/services/scraper.py` (module `app.services.scraper`):
the blocked-range table `BLOCKED_IP_RANGES`, the safety gate
`is_safe_url`, and the fetch/extraction pipeline `fetch_article_text`.

External effects (name resolution via `socket.gethostbyname` +
`ipaddress.ip_address`, the HTTP client, the readability library) are
passed in as explicit function parameters; counters make the number of
resolver / fetch invocations observable.
-/

/-- A parsed IP address in the sense of Python's `ipaddress.ip_address`:
either an `IPv4Address` (a value below `2^32`) or an `IPv6Address`
(a value below `2^128`). -/
inductive IPAddr where
  | v4 (a : Nat)
  | v6 (a : Nat)
deriving DecidableEq, Repr

/-- An `ipaddress.ip_network` value: version flag, network address and
prefix length.  `ip_network` is strict, so the host bits of `netAddr`
are zero for every entry of the table below. -/
structure IPNetwork where
  isV6 : Bool
  netAddr : Nat
  prefixLen : Nat
deriving DecidableEq, Repr

/-- The numeric value of a dotted-quad IPv4 address `a.b.c.d`. -/
def v4Addr (a b c d : Nat) : Nat := ((a * 256 + b) * 256 + c) * 256 + d

/-- Python `addr in network` (`_BaseNetwork.__contains__`): always false
when the versions differ, otherwise the masked address equals the
network address (`other._ip & self.netmask._ip == self.network_address._ip`). -/
def IPNetwork.containsAddr (n : IPNetwork) (a : IPAddr) : Bool :=
  match a with
  | IPAddr.v4 x =>
      !n.isV6 && decide (x / 2 ^ (32 - n.prefixLen) * 2 ^ (32 - n.prefixLen) = n.netAddr)
  | IPAddr.v6 x =>
      n.isV6 && decide (x / 2 ^ (128 - n.prefixLen) * 2 ^ (128 - n.prefixLen) = n.netAddr)

/-- `BLOCKED_IP_RANGES` of `scraper.py`, lines 11-20, in source order. -/
def BLOCKED_IP_RANGES : List IPNetwork :=
  [ ⟨false, v4Addr 127 0 0 0, 8⟩      -- 127.0.0.0/8    loopback
  , ⟨false, v4Addr 10 0 0 0, 8⟩       -- 10.0.0.0/8     private class A
  , ⟨false, v4Addr 172 16 0 0, 12⟩    -- 172.16.0.0/12  private class B
  , ⟨false, v4Addr 192 168 0 0, 16⟩   -- 192.168.0.0/16 private class C
  , ⟨false, v4Addr 169 254 0 0, 16⟩   -- 169.254.0.0/16 link-local
  , ⟨true, 1, 128⟩                    -- ::1/128        IPv6 loopback
  , ⟨true, 0xfc00 * 2 ^ 112, 7⟩       -- fc00::/7       IPv6 unique-local
  , ⟨true, 0xfe80 * 2 ^ 112, 10⟩ ]    -- fe80::/10      IPv6 link-local

/-- The Address Classifier: the loop of `is_safe_url` over
`BLOCKED_IP_RANGES` (lines 53-57 of `scraper.py`) — an address is
blocked exactly when some table entry contains it. -/
def isBlocked (a : IPAddr) : Bool :=
  BLOCKED_IP_RANGES.any (fun r => r.containsAddr a)

/-- The IPv4-mapped IPv6 form `::ffff:a.b.c.d` of an IPv4 address. -/
def mappedV4 (x : Nat) : IPAddr := IPAddr.v6 (0xffff * 2 ^ 32 + x)

/-! ## A model of `urllib.parse.urlparse`

Only the fields `scheme`, `netloc` and the derived `hostname` are used
by `is_safe_url`; the model reproduces CPython's `urlsplit` for those:
the scheme split (letter start, scheme characters, lowercased), the
netloc split after `//` up to the first of `/?#`, the
mismatched-bracket `ValueError` (modelled as `none`), and the
`hostname` property (strip userinfo after the last `@`, bracketed host
or strip the port, lowercased, `None` when empty). -/

/-- Python whitespace for `str.strip()` (ASCII subset). -/
def isPySpace (c : Char) : Bool :=
  c == ' ' || c == '\t' || c == '\n' || c == '\r' || c == '\x0b' || c == '\x0c'

/-- `str.strip()` on a string. -/
def pyStrip (s : String) : String :=
  String.mk (((s.toList.dropWhile isPySpace).reverse.dropWhile isPySpace).reverse)

/-- CPython `scheme_chars`: letters, digits, `+`, `-`, `.`. -/
def schemeChar (c : Char) : Bool :=
  c.isAlpha || c.isDigit || c == '+' || c == '-' || c == '.'

/-- Split a character list at the first `:`; `none` when there is none. -/
def splitColon : List Char → Option (List Char × List Char)
  | [] => none
  | c :: cs =>
      if c == ':' then some ([], cs)
      else match splitColon cs with
        | some (pre, post) => some (c :: pre, post)
        | none => none

/-- The scheme split of `urlsplit`: when the text before the first `:`
is nonempty, starts with an ASCII letter and consists of scheme
characters, it is the scheme (lowercased) and the rest follows the
colon; otherwise the scheme is empty and the URL is unchanged. -/
def splitScheme (url : List Char) : List Char × List Char :=
  match splitColon url with
  | none => ([], url)
  | some (pre, post) =>
      match pre with
      | [] => ([], url)
      | c0 :: _ =>
          if c0.isAlpha && pre.all schemeChar then (pre.map Char.toLower, post)
          else ([], url)

/-- `_splitnetloc`: the netloc runs up to the first of `/`, `?`, `#`. -/
def takeUntilDelim (l : List Char) : List Char :=
  l.takeWhile (fun c => c ≠ '/' && c ≠ '?' && c ≠ '#')

/-- `rpartition('@')`: everything after the last `@` (the whole text
when there is no `@`). -/
def afterLastAt (l : List Char) : List Char :=
  (l.reverse.takeWhile (fun c => c ≠ '@')).reverse

/-- The `hostname` property computed from the netloc (`_hostinfo` then
lowercase; empty becomes `none`). -/
def hostFromNetloc (netloc : List Char) : Option String :=
  let hostinfo := afterLastAt netloc
  let host :=
    if hostinfo.contains '[' then
      (((hostinfo.dropWhile (fun c => c ≠ '[')).drop 1).takeWhile (fun c => c ≠ ']')).map
        Char.toLower
    else
      (hostinfo.takeWhile (fun c => c ≠ ':')).map Char.toLower
  if host.isEmpty then none else some (String.mk host)

/-- The components of a parse that `is_safe_url` reads:
`parsed.scheme` and `parsed.hostname`. -/
structure ParsedURL where
  scheme : String
  netloc : String
  hostname : Option String
deriving DecidableEq, Repr

/-- `urllib.parse.urlparse`, restricted to the fields the gate uses.
`none` models the `ValueError` CPython raises on a netloc with a `[`
without `]` or a `]` without `[` (the further validation of bracketed
hosts is not modelled; it only turns more inputs into `none`). -/
def urlparse (url : String) : Option ParsedURL :=
  let (sch, rest) := splitScheme url.toList
  let netloc := if rest.take 2 = ['/', '/'] then takeUntilDelim (rest.drop 2) else []
  if (netloc.contains '[' && !netloc.contains ']')
      || (netloc.contains ']' && !netloc.contains '[') then none
  else some ⟨String.mk sch, String.mk netloc, hostFromNetloc netloc⟩

/-! ## The URL Safety Gate `is_safe_url`

The resolver parameter folds `socket.gethostbyname` followed by
`ipaddress.ip_address`: `some a` is a successful resolution to the
address `a`, `none` is a `socket.gaierror` or a `ValueError` — the two
are caught by the same `except` clause of the source and are
indistinguishable there.  The second component of the result counts
resolver invocations.  Every exception path of the source returns
`False`, so the embedding is a total function into `Bool`. -/

/-- `is_safe_url` of `scraper.py` lines 23-67, instrumented with the
number of name-resolution calls performed. -/
def is_safe_url_run (resolve : String → Option IPAddr) (url : String) : Bool × Nat :=
  match urlparse url with
  | none => (false, 0)
  | some parsed =>
      if !(parsed.scheme == "http" || parsed.scheme == "https") then (false, 0)
      else
        match parsed.hostname with
        | none => (false, 0)
        | some hostname =>
            match resolve hostname with
            | none => (false, 1)
            | some ip =>
                if BLOCKED_IP_RANGES.any (fun r => r.containsAddr ip) then (false, 1)
                else (true, 1)

/-- `is_safe_url`: the boolean the caller sees. -/
def is_safe_url (resolve : String → Option IPAddr) (url : String) : Bool :=
  (is_safe_url_run resolve url).1

example : urlparse "http://localhost:8000/health"
    = some ⟨"http", "localhost:8000", some "localhost"⟩ := by decide
example : urlparse "HTTP://Example.COM/api"
    = some ⟨"http", "Example.COM", some "example.com"⟩ := by decide
example : urlparse "file:///etc/passwd" = some ⟨"file", "", none⟩ := by decide
example : urlparse "http://[::1]/api" = some ⟨"http", "[::1]", some "::1"⟩ := by decide
example : urlparse "http://[::1/api" = none := by decide
example : isBlocked (IPAddr.v4 (v4Addr 127 0 0 1)) = true := by decide
example : isBlocked (IPAddr.v4 (v4Addr 93 184 216 34)) = false := by decide
example : isBlocked (IPAddr.v6 1) = true := by decide

/-! ## A model of parsed markup and the BeautifulSoup operations used

`BeautifulSoup(html, 'html.parser')` parses a string into an element
tree; the embedding works on the tree directly (a fetched body and a
readability summary are trees).  The soup object itself is the root
node; `find`/`find_all` search its descendants in document order. -/

mutual
/-- An element tree: a tagged element with children, or a text node
(a `NavigableString`). -/
inductive Node where
  | elem (tag : String) (children : Forest)
  | text (s : String)

/-- A sibling list (`Tag.contents`), in document order. -/
inductive Forest where
  | nil
  | cons (head : Node) (tail : Forest)
end

/-- Build a sibling list from a Lean list (used to write documents). -/
def toForest : List Node → Forest
  | [] => Forest.nil
  | n :: ns => Forest.cons n (toForest ns)

mutual
/-- The text nodes below a node, in document order. -/
def nodeStrings : Node → List String
  | Node.text s => [s]
  | Node.elem _ cs => forestStrings cs

/-- The text nodes below a sibling list, in document order. -/
def forestStrings : Forest → List String
  | Forest.nil => []
  | Forest.cons n ns => nodeStrings n ++ forestStrings ns
end

/-- `get_text(separator, strip=True)`: each descendant string stripped,
empty results skipped, the rest joined by the separator. -/
def getTextSep (sep : String) (n : Node) : String :=
  String.intercalate sep (((nodeStrings n).map pyStrip).filter (fun s => s ≠ ""))

/-- `soup.get_text(separator='\n', strip=True)` as used on whole trees. -/
def getTextNewline (n : Node) : String := getTextSep "\n" n

/-- `p.get_text(strip=True)` (default empty separator). -/
def getTextPlain (n : Node) : String := getTextSep "" n

/-- The tags decomposed by the fallback branch of `fetch_article_text`:
`soup(["script", "style", "nav", "footer", "header"])` followed by
`.decompose()`. -/
def badTags : List String := ["script", "style", "nav", "footer", "header"]

mutual
/-- Remove every element whose tag is in `bad`, with its whole
subtree (`Tag.decompose` on every match). -/
def removeTags (bad : List String) : Node → Node
  | Node.text s => Node.text s
  | Node.elem t cs => Node.elem t (removeTagsForest bad cs)

/-- `removeTags` over a sibling list. -/
def removeTagsForest (bad : List String) : Forest → Forest
  | Forest.nil => Forest.nil
  | Forest.cons n cs =>
      match n with
      | Node.text s => Forest.cons (Node.text s) (removeTagsForest bad cs)
      | Node.elem t _ =>
          if bad.contains t then removeTagsForest bad cs
          else Forest.cons (removeTags bad n) (removeTagsForest bad cs)
end

mutual
/-- `find_all(t)`: every descendant element tagged `t`, in document
order (an element precedes its own descendants). -/
def descendantsWithTag (t : String) : Node → List Node
  | Node.text _ => []
  | Node.elem _ cs => descendantsWithTagForest t cs

/-- `descendantsWithTag` over a sibling list: for each sibling, the
sibling itself when its tag matches, then the matches below it, then
the matches in the later siblings. -/
def descendantsWithTagForest (t : String) : Forest → List Node
  | Forest.nil => []
  | Forest.cons n cs =>
      (match n with
        | Node.elem t2 _ => if t2 == t then [n] else []
        | Node.text _ => [])
        ++ descendantsWithTag t n ++ descendantsWithTagForest t cs
end

/-- `find(t)`: the first descendant element tagged `t`, if any. -/
def findTag (t : String) (n : Node) : Option Node :=
  (descendantsWithTag t n).head?

/-- `soup.find('article') or soup.find('main') or soup` (lines 126-127):
the first match wins, else the root. -/
def locateContainer (soup : Node) : Node :=
  match findTag "article" soup with
  | some a => a
  | none =>
      match findTag "main" soup with
      | some m => m
      | none => soup

/-- Line 131: `'\n'.join(p.get_text(strip=True) for p in paragraphs
if p.get_text(strip=True))` over `article.find_all('p')`. -/
def parJoin (container : Node) : String :=
  String.intercalate "\n"
    (((descendantsWithTag "p" container).map getTextPlain).filter (fun s => s ≠ ""))

/-- The fallback branch of `fetch_article_text` (lines 118-137): strip
the bad tags, locate the container, join the paragraph texts; when that
is empty, flatten the whole (stripped) document. -/
def fallbackExtract (html : Node) : String :=
  let soup := removeTags badTags html
  let container := locateContainer soup
  let text := parJoin container
  if text == "" then getTextNewline soup else text

/-- The whole extraction part of `fetch_article_text` (lines 100-137).
`readability` models `readability.Document`: `some (title, content)`
is a successful `doc.title()` / `doc.summary()` pair (the summary
already parsed), `none` an exception anywhere in the `try` block, which
the source answers with the fallback extraction.  On success the text
is the flattened summary, title-prefixed when the title is nonempty
(`if title:`). -/
def extractText (readability : Node → Option (String × Node)) (html : Node) : String :=
  match readability html with
  | some (title, content) =>
      let text := getTextNewline content
      if title ≠ "" then title ++ "\n\n" ++ text else text
  | none => fallbackExtract html

/-! ## The Content Fetcher and `fetch_article_text` -/

/-- What the single `client.get(url)` / `raise_for_status()` of the
source can produce: a body, an `httpx.TimeoutException`, another
`httpx.TransportError` (connection/protocol failure), or an
`httpx.HTTPStatusError` from a non-success status.  The message
models `str(e)`. -/
inductive FetchOutcome where
  | success (body : Node)
  | timeout
  | transportError (msg : String)
  | httpStatusError (msg : String)

/-- A raised Python exception as observed by the caller of
`fetch_article_text`: the source only ever raises `ValueError`. -/
inductive PyExc where
  | valueError (msg : String)
deriving DecidableEq, Repr

/-- `fetch_article_text` of `scraper.py` lines 70-137.  `resolve` is
the gate's resolver environment, `fetch` the HTTP client (applied to
the raw URL string, as `client.get(url)` is), `readability` the
`Document` library.  The second component counts fetch invocations.
`Except.error` models a raised exception. -/
def fetch_article_text_run (resolve : String → Option IPAddr)
    (fetch : String → FetchOutcome) (readability : Node → Option (String × Node))
    (url : String) (timeout : Nat) : Except PyExc String × Nat :=
  if !is_safe_url resolve url then
    (Except.error (PyExc.valueError ("URL blocked for security reasons: " ++ url)), 0)
  else
    match fetch url with
    | FetchOutcome.timeout =>
        (Except.error (PyExc.valueError
          ("Request timed out after " ++ toString timeout ++ " seconds")), 1)
    | FetchOutcome.transportError m =>
        (Except.error (PyExc.valueError ("Failed to fetch URL: " ++ m)), 1)
    | FetchOutcome.httpStatusError m =>
        (Except.error (PyExc.valueError ("Failed to fetch URL: " ++ m)), 1)
    | FetchOutcome.success body => (Except.ok (extractText readability body), 1)

/-! ## Concrete environments used by witnesses and counterexamples -/

/-- A resolver mapping every hostname to the public address
93.184.216.34 (the spec's mocked public resolution). -/
def pubResolve : String → Option IPAddr :=
  fun _ => some (IPAddr.v4 (v4Addr 93 184 216 34))

/-- A resolver mapping every hostname (e.g. `localhost`) to 127.0.0.1. -/
def loopResolve : String → Option IPAddr :=
  fun _ => some (IPAddr.v4 (v4Addr 127 0 0 1))

/-- A resolver mapping every hostname to the private address 192.168.1.1. -/
def privResolve : String → Option IPAddr :=
  fun _ => some (IPAddr.v4 (v4Addr 192 168 1 1))

/-- A resolver that always fails (`socket.gaierror`). -/
def failResolve : String → Option IPAddr := fun _ => none

/-- A readability environment that always raises. -/
def noReadability : Node → Option (String × Node) := fun _ => none

/-! ## C2 — no fetch before the Safety Gate -/

/-- C2: for every environment and URL, when `is_safe_url` answers
false, `fetch_article_text` raises the security `ValueError` and the
fetch function is invoked zero times; the gate runs before any
outbound request. -/
theorem C2_no_fetch_before_gate (resolve : String → Option IPAddr)
    (fetch : String → FetchOutcome) (readability : Node → Option (String × Node))
    (url : String) (timeout : Nat) (h : is_safe_url resolve url = false) :
    fetch_article_text_run resolve fetch readability url timeout
      = (Except.error (PyExc.valueError ("URL blocked for security reasons: " ++ url)), 0) := by
  simp [fetch_article_text_run, h]

/-- C2 witness: `http://localhost:8000/health`, with `localhost`
resolving to 127.0.0.1, is rejected with zero fetch invocations. -/
theorem C2_no_fetch_before_gate_witness :
    fetch_article_text_run loopResolve (fun _ => FetchOutcome.timeout) noReadability
      ("http://localhost:8000/health") 10
      = (Except.error (PyExc.valueError
          ("URL blocked for security reasons: " ++ "http://localhost:8000/health")), 0) :=
  C2_no_fetch_before_gate loopResolve (fun _ => FetchOutcome.timeout) noReadability
    ("http://localhost:8000/health") 10 (by decide)

/-! ## C5 — non-http(s) schemes rejected before resolution -/

/-- C5: for every URL that parses with a scheme other than `http` or
`https` (the parse already lowercases the scheme, so the check is
case-insensitive; a scheme-less URL parses with the empty scheme), the
gate answers false having made zero name-resolution calls. -/
theorem C5_scheme_rejected_without_resolution (resolve : String → Option IPAddr)
    (url : String) (p : ParsedURL) (hp : urlparse url = some p)
    (h1 : p.scheme ≠ "http") (h2 : p.scheme ≠ "https") :
    is_safe_url_run resolve url = (false, 0) := by
  unfold is_safe_url_run
  rw [hp]
  simp [h1, h2]

/-- C5 witness: `file:///etc/passwd` is rejected with zero resolver
calls. -/
theorem C5_scheme_rejected_without_resolution_witness :
    is_safe_url_run pubResolve ("file:///etc/passwd") = (false, 0) :=
  C5_scheme_rejected_without_resolution pubResolve ("file:///etc/passwd")
    ⟨"file", "", none⟩ (by decide) (by decide) (by decide)

/-! ## C4 — resolve, classify, reject iff blocked -/

/-- C4: when the URL parses, the scheme is http(s), a hostname is
present and the resolver yields an address, the gate performs exactly
one resolution and rejects the URL exactly when the resolved address is
in the blocked table (`socket.gethostbyname` yields a single address;
the classifier is applied to it). -/
theorem C4_reject_iff_blocked (resolve : String → Option IPAddr)
    (url : String) (p : ParsedURL) (host : String) (ip : IPAddr)
    (hp : urlparse url = some p)
    (hs : p.scheme = "http" ∨ p.scheme = "https")
    (hh : p.hostname = some host) (hr : resolve host = some ip) :
    (is_safe_url_run resolve url).2 = 1
      ∧ (is_safe_url resolve url = false ↔ isBlocked ip = true) := by
  have hsch : (p.scheme == "http" || p.scheme == "https") = true := by
    rcases hs with h | h <;> simp [h]
  have key : is_safe_url_run resolve url = (!isBlocked ip, 1) := by
    unfold is_safe_url_run
    rw [hp]
    cases hb : isBlocked ip with
    | false =>
        have hb' : BLOCKED_IP_RANGES.any (fun r => r.containsAddr ip) = false := hb
        simp [hsch, hh, hr, hb', -List.any_eq_true]
    | true =>
        have hb' : BLOCKED_IP_RANGES.any (fun r => r.containsAddr ip) = true := hb
        simp [hsch, hh, hr, hb', -List.any_eq_true]
  refine ⟨by rw [key], ?_⟩
  unfold is_safe_url
  rw [key]
  cases hb : isBlocked ip <;> simp [hb]

/-- C4 witness: `http://192.168.1.1/admin` resolving to 192.168.1.1 —
one resolution, and rejection is equivalent to the address being
blocked. -/
theorem C4_reject_iff_blocked_witness :
    (is_safe_url_run privResolve ("http://192.168.1.1/admin")).2 = 1
      ∧ (is_safe_url privResolve ("http://192.168.1.1/admin") = false
          ↔ isBlocked (IPAddr.v4 (v4Addr 192 168 1 1)) = true) :=
  C4_reject_iff_blocked privResolve ("http://192.168.1.1/admin")
    ⟨"http", "192.168.1.1", some "192.168.1.1"⟩ ("192.168.1.1")
    (IPAddr.v4 (v4Addr 192 168 1 1)) (by decide) (Or.inl (by decide)) (by decide) (by decide)

/-! ## C10 — `is_safe_url` is total and fails closed -/

/-- C10: the embedding is a total boolean function (every exception
path of the source is a `return False` branch), and it fails closed:
an unparseable URL, a missing hostname or a failed resolution each
yield `false`, and `true` is only ever reached when the URL parsed, the
scheme was http(s), a hostname was present, it resolved, and the
resolved address was outside every blocked range. -/
theorem C10_fails_closed (resolve : String → Option IPAddr) (url : String) :
    (urlparse url = none → is_safe_url resolve url = false)
    ∧ (∀ p, urlparse url = some p → p.hostname = none → is_safe_url resolve url = false)
    ∧ (∀ p host, urlparse url = some p → p.hostname = some host → resolve host = none →
        is_safe_url resolve url = false)
    ∧ (is_safe_url resolve url = true →
        ∃ p host ip, urlparse url = some p ∧ (p.scheme = "http" ∨ p.scheme = "https")
          ∧ p.hostname = some host ∧ resolve host = some ip ∧ isBlocked ip = false) := by
  refine ⟨?_, ?_, ?_, ?_⟩
  · intro h
    simp [is_safe_url, is_safe_url_run, h]
  · intro p hp hh
    simp [is_safe_url, is_safe_url_run, hp, hh]
  · intro p host hp hh hr
    unfold is_safe_url is_safe_url_run
    rw [hp]
    by_cases hsch : (p.scheme == "http" || p.scheme == "https") = true
    · simp [hsch, hh, hr]
    · rw [Bool.not_eq_true] at hsch
      simp [hsch]
  · intro htrue
    cases hp : urlparse url with
    | none =>
        have hfalse : is_safe_url resolve url = false := by
          simp [is_safe_url, is_safe_url_run, hp]
        rw [hfalse] at htrue
        simp at htrue
    | some p =>
        by_cases hsch : (p.scheme == "http" || p.scheme == "https") = true
        · cases hh : p.hostname with
          | none =>
              have hfalse : is_safe_url resolve url = false := by
                simp [is_safe_url, is_safe_url_run, hp, hh]
              rw [hfalse] at htrue
              simp at htrue
          | some host =>
              cases hr : resolve host with
              | none =>
                  have hfalse : is_safe_url resolve url = false := by
                    unfold is_safe_url is_safe_url_run
                    rw [hp]
                    simp [hsch, hh, hr]
                  rw [hfalse] at htrue
                  simp at htrue
              | some ip =>
                  cases hb : BLOCKED_IP_RANGES.any (fun r => r.containsAddr ip) with
                  | true =>
                      have hfalse : is_safe_url resolve url = false := by
                        unfold is_safe_url is_safe_url_run
                        rw [hp]
                        simp [hsch, hh, hr, hb, -List.any_eq_true]
                      rw [hfalse] at htrue
                      simp at htrue
                  | false =>
                      exact ⟨p, host, ip, rfl, by simpa using hsch, hh, hr,
                        by simpa [isBlocked] using hb⟩
        · have hfalse : is_safe_url resolve url = false := by
            unfold is_safe_url is_safe_url_run
            rw [hp]
            rw [Bool.not_eq_true] at hsch
            simp [hsch]
          rw [hfalse] at htrue
          simp at htrue

/-- C10 witness: a resolver failure yields `false` (the gate fails
closed on `gaierror`). -/
theorem C10_fails_closed_witness :
    is_safe_url failResolve ("http://example.com/api") = false :=
  (C10_fails_closed failResolve ("http://example.com/api")).2.2.1
    ⟨"http", "example.com", some "example.com"⟩ ("example.com")
    (by decide) (by decide) rfl

/-! ## C9 — fetch failures: one exception type, distinct messages only -/

/-- C9 counterexample: a connection/protocol failure and a non-success
HTTP status with the same underlying message produce *equal* raised
errors — both branches raise `ValueError ("Failed to fetch URL: " + str(e))`,
so the fetcher does not surface them as distinct typed errors. -/
theorem C9_counterexample_same_error_type :
    fetch_article_text_run pubResolve (fun _ => FetchOutcome.transportError "boom")
        noReadability ("http://example.com/api") 10
      = fetch_article_text_run pubResolve (fun _ => FetchOutcome.httpStatusError "boom")
          noReadability ("http://example.com/api") 10
    ∧ fetch_article_text_run pubResolve (fun _ => FetchOutcome.transportError "boom")
        noReadability ("http://example.com/api") 10
      = (Except.error (PyExc.valueError ("Failed to fetch URL: boom")), 1) :=
  ⟨rfl, rfl⟩

/-- C9 amended: with the gate passed, a timeout raises
`ValueError ("Request timed out after N seconds")`, while a transport
failure and a non-success HTTP status both raise
`ValueError ("Failed to fetch URL: " + str(e))` — one exception type,
distinguished (only for the timeout) by message; each case issues
exactly one fetch, so no retry is performed. -/
theorem C9_amended_single_fetch_value_errors (resolve : String → Option IPAddr)
    (fetch : String → FetchOutcome) (readability : Node → Option (String × Node))
    (url : String) (timeout : Nat) (hgate : is_safe_url resolve url = true) :
    (fetch url = FetchOutcome.timeout →
      fetch_article_text_run resolve fetch readability url timeout
        = (Except.error (PyExc.valueError
            ("Request timed out after " ++ toString timeout ++ " seconds")), 1))
    ∧ (∀ m, fetch url = FetchOutcome.transportError m →
        fetch_article_text_run resolve fetch readability url timeout
          = (Except.error (PyExc.valueError ("Failed to fetch URL: " ++ m)), 1))
    ∧ (∀ m, fetch url = FetchOutcome.httpStatusError m →
        fetch_article_text_run resolve fetch readability url timeout
          = (Except.error (PyExc.valueError ("Failed to fetch URL: " ++ m)), 1)) := by
  refine ⟨fun h => ?_, fun m h => ?_, fun m h => ?_⟩ <;>
    simp [fetch_article_text_run, hgate, h]

/-- C9 amended witness: an expired timeout on `http://example.com/api`
raises the timeout `ValueError` after exactly one fetch. -/
theorem C9_amended_single_fetch_value_errors_witness :
    fetch_article_text_run pubResolve (fun _ => FetchOutcome.timeout) noReadability
        ("http://example.com/api") 10
      = (Except.error (PyExc.valueError
          ("Request timed out after " ++ toString 10 ++ " seconds")), 1) :=
  (C9_amended_single_fetch_value_errors pubResolve (fun _ => FetchOutcome.timeout)
    noReadability ("http://example.com/api") 10 (by decide)).1 rfl

/-! ## C3 — the check-time/use-time (TOCTOU) gap -/

/-- Check-time resolution of `rebind.example`: the public address
93.184.216.34. -/
def rebindCheckResolve : String → Option IPAddr :=
  fun host => if host = "rebind.example" then some (IPAddr.v4 (v4Addr 93 184 216 34)) else none

/-- Use-time resolution of the same name: 127.0.0.1 (DNS rebinding). -/
def rebindUseResolve : String → Option IPAddr :=
  fun host => if host = "rebind.example" then some (IPAddr.v4 (v4Addr 127 0 0 1)) else none

/-- C3: the code violates the claim.  `fetch_article_text` hands the
raw URL string to the HTTP client (`client.get(url)`), which resolves
the hostname again on its own; the already-validated address is not
used and no safety re-check runs.  Concretely: under the check-time
resolver the gate passes and the fetch is issued (one invocation, on
the URL string), while the very same URL under the use-time resolver is
blocked — so the address actually connected to need not be the address
that was checked. -/
theorem C3_toctou_no_revalidation :
    is_safe_url rebindCheckResolve ("http://rebind.example/a") = true
    ∧ (fetch_article_text_run rebindCheckResolve
        (fun _ => FetchOutcome.success (Node.text "ok")) noReadability
        ("http://rebind.example/a") 10).2 = 1
    ∧ is_safe_url rebindUseResolve ("http://rebind.example/a") = false := by
  refine ⟨by decide, ?_, by decide⟩
  have hgate : is_safe_url rebindCheckResolve ("http://rebind.example/a") = true := by decide
  simp [fetch_article_text_run, hgate]

/-! ## C1 — the Address Classifier -/

/-- C1 counterexample: the classifier blocks 127.0.0.1 but does *not*
block its IPv4-mapped IPv6 form `::ffff:127.0.0.1` — Python's
`in`-check on a network is always false across versions, and no v6
table entry covers `::ffff:0:0/96`. -/
theorem C1_counterexample_mapped_loopback :
    isBlocked (IPAddr.v4 (v4Addr 127 0 0 1)) = true
    ∧ isBlocked (mappedV4 (v4Addr 127 0 0 1)) = false := by
  refine ⟨by decide, by decide⟩

/-- C1 amended: the classifier blocks exactly the IPv4 addresses in
127.0.0.0/8, 10.0.0.0/8, 172.16.0.0/12, 192.168.0.0/16, 169.254.0.0/16
and the IPv6 addresses in ::1/128, fc00::/7, fe80::/10 — membership is
version-sensitive, so IPv4-mapped IPv6 forms of the IPv4 ranges are not
blocked. -/
theorem C1_amended_blocked_iff_ranges (a : IPAddr) :
    isBlocked a = true ↔
      (∃ x, a = IPAddr.v4 x ∧
        ((v4Addr 127 0 0 0 ≤ x ∧ x ≤ v4Addr 127 255 255 255)
          ∨ (v4Addr 10 0 0 0 ≤ x ∧ x ≤ v4Addr 10 255 255 255)
          ∨ (v4Addr 172 16 0 0 ≤ x ∧ x ≤ v4Addr 172 31 255 255)
          ∨ (v4Addr 192 168 0 0 ≤ x ∧ x ≤ v4Addr 192 168 255 255)
          ∨ (v4Addr 169 254 0 0 ≤ x ∧ x ≤ v4Addr 169 254 255 255)))
      ∨ (∃ y, a = IPAddr.v6 y ∧
          (y = 1
            ∨ (0xfc00 * 2 ^ 112 ≤ y ∧ y < 0xfe00 * 2 ^ 112)
            ∨ (0xfe80 * 2 ^ 112 ≤ y ∧ y < 0xfec0 * 2 ^ 112))) := by
  cases a with
  | v4 x =>
      have base : isBlocked (IPAddr.v4 x) = true ↔
          ((v4Addr 127 0 0 0 ≤ x ∧ x ≤ v4Addr 127 255 255 255)
            ∨ (v4Addr 10 0 0 0 ≤ x ∧ x ≤ v4Addr 10 255 255 255)
            ∨ (v4Addr 172 16 0 0 ≤ x ∧ x ≤ v4Addr 172 31 255 255)
            ∨ (v4Addr 192 168 0 0 ≤ x ∧ x ≤ v4Addr 192 168 255 255)
            ∨ (v4Addr 169 254 0 0 ≤ x ∧ x ≤ v4Addr 169 254 255 255)) := by
        simp only [isBlocked, BLOCKED_IP_RANGES, List.any_cons, List.any_nil,
          IPNetwork.containsAddr, Bool.not_false, Bool.not_true, Bool.true_and,
          Bool.false_and, Bool.or_false, Bool.or_eq_true, decide_eq_true_eq]
        norm_num [v4Addr]
        omega
      rw [base]
      simp
  | v6 y =>
      have base : isBlocked (IPAddr.v6 y) = true ↔
          (y = 1
            ∨ (0xfc00 * 2 ^ 112 ≤ y ∧ y < 0xfe00 * 2 ^ 112)
            ∨ (0xfe80 * 2 ^ 112 ≤ y ∧ y < 0xfec0 * 2 ^ 112)) := by
        simp only [isBlocked, BLOCKED_IP_RANGES, List.any_cons, List.any_nil,
          IPNetwork.containsAddr, Bool.not_false, Bool.not_true, Bool.true_and,
          Bool.false_and, Bool.or_false, Bool.or_eq_true, decide_eq_true_eq]
        norm_num [v4Addr]
        omega
      rw [base]
      simp

/-! ## Structural lemmas about the markup model -/

mutual
/-- Every text node below a `find_all` match is a text node of the
searched node. -/
theorem strings_of_desc_node (t : String) (n p : Node)
    (hp : p ∈ descendantsWithTag t n) : ∀ s ∈ nodeStrings p, s ∈ nodeStrings n := by
  match n with
  | Node.text u =>
      simp [descendantsWithTag] at hp
  | Node.elem tag cs =>
      simp only [descendantsWithTag] at hp
      simp only [nodeStrings]
      exact strings_of_desc_forest t cs p hp

/-- Every text node below a `find_all` match in a sibling list is a
text node of the list. -/
theorem strings_of_desc_forest (t : String) (cs : Forest) (p : Node)
    (hp : p ∈ descendantsWithTagForest t cs) :
    ∀ s ∈ nodeStrings p, s ∈ forestStrings cs := by
  match cs with
  | Forest.nil =>
      simp [descendantsWithTagForest] at hp
  | Forest.cons n rest =>
      simp only [descendantsWithTagForest] at hp
      intro s hs
      simp only [forestStrings]
      rcases List.mem_append.1 hp with h1 | hrest
      · rcases List.mem_append.1 h1 with hhit | hsub
        · have hp2 : p = n := by
            cases n with
            | text u => simp at hhit
            | elem t2 cs2 =>
                by_cases ht : (t2 == t) = true
                · simpa [ht] using hhit
                · simp [ht] at hhit
          subst hp2
          exact List.mem_append_left _ hs
        · have := strings_of_desc_node t n p hsub s hs
          exact List.mem_append_left _ this
      · have := strings_of_desc_forest t rest p hrest s hs
        exact List.mem_append_right _ this
end

/-- A `find` hit is among the `find_all` matches. -/
theorem findTag_mem (t : String) (n a : Node) (h : findTag t n = some a) :
    a ∈ descendantsWithTag t n := by
  unfold findTag at h
  cases hl : descendantsWithTag t n with
  | nil => rw [hl] at h; simp at h
  | cons b l =>
      rw [hl] at h
      simp only [List.head?_cons, Option.some.injEq] at h
      subst h
      exact List.mem_cons_self _ _

/-- Every text node below the located container is a text node of the
document it was located in. -/
theorem locateContainer_strings (soup : Node) :
    ∀ s ∈ nodeStrings (locateContainer soup), s ∈ nodeStrings soup := by
  unfold locateContainer
  cases ha : findTag "article" soup with
  | some a =>
      intro s hs
      exact strings_of_desc_node "article" soup a (findTag_mem _ _ _ ha) s hs
  | none =>
      cases hm : findTag "main" soup with
      | some m =>
          intro s hs
          exact strings_of_desc_node "main" soup m (findTag_mem _ _ _ hm) s hs
      | none =>
          intro s hs
          exact hs

/-- When every text node of a tree strips to empty, its
`get_text(strip=True)` is empty. -/
theorem getTextSep_eq_empty (sep : String) (m : Node)
    (h : ∀ s ∈ nodeStrings m, pyStrip s = "") : getTextSep sep m = "" := by
  unfold getTextSep
  have hf : ((nodeStrings m).map pyStrip).filter (fun s => s ≠ "") = [] := by
    rw [List.filter_eq_nil_iff]
    intro s hs
    rcases List.mem_map.1 hs with ⟨u, hu, rfl⟩
    simp [h u hu]
  rw [hf]
  rfl

/-- When every text node of the container strips to empty, the joined
paragraph text is empty. -/
theorem parJoin_eq_empty (container : Node)
    (h : ∀ s ∈ nodeStrings container, pyStrip s = "") : parJoin container = "" := by
  unfold parJoin
  have hf : ((descendantsWithTag "p" container).map getTextPlain).filter
      (fun s => s ≠ "") = [] := by
    rw [List.filter_eq_nil_iff]
    intro s hs
    rcases List.mem_map.1 hs with ⟨q, hq, rfl⟩
    have hq2 : ∀ u ∈ nodeStrings q, pyStrip u = "" :=
      fun u hu => h u (strings_of_desc_node "p" container q hq u hu)
    have : getTextPlain q = "" := getTextSep_eq_empty "" q hq2
    simp [this]
  rw [hf]
  rfl

/-- When every text node of the cleaned tree strips to empty, all
fallback tiers produce the empty string. -/
theorem fallbackExtract_eq_empty (html : Node)
    (h : ∀ s ∈ nodeStrings (removeTags badTags html), pyStrip s = "") :
    fallbackExtract html = "" := by
  have hcont : ∀ s ∈ nodeStrings (locateContainer (removeTags badTags html)),
      pyStrip s = "" :=
    fun s hs => h s (locateContainer_strings (removeTags badTags html) s hs)
  have hpar : parJoin (locateContainer (removeTags badTags html)) = "" :=
    parJoin_eq_empty _ hcont
  have hflat : getTextNewline (removeTags badTags html) = "" := by
    unfold getTextNewline
    exact getTextSep_eq_empty "\n" _ h
  unfold fallbackExtract
  simp [hpar, hflat]

/-! ## C6 — empty markup: an empty string, not a typed failure -/

/-- C6 counterexample: on whitespace-only markup, with the structured
tier raising (as readability does on empty input), `fetch_article_text`
returns the plain string `""` through the normal (non-error) path — the
source has no typed no-content failure, and the non-error result here
is empty, not non-trivial text. -/
theorem C6_counterexample_ok_empty_string :
    fetch_article_text_run pubResolve
        (fun _ => FetchOutcome.success (Node.elem "[document]" (toForest [Node.text " "])))
        noReadability ("http://example.com/api") 10 = (Except.ok "", 1) := rfl

/-- C6 amended: when the gate passes, the fetch succeeds, the
structured tier raises and every text node of the cleaned document
strips to whitespace-free emptiness (so all three tiers produce empty
output), the pipeline returns `Except.ok ""` — an ordinary empty
string as a non-error result, not a typed failure. -/
theorem C6_amended_all_tiers_empty_gives_empty_string
    (resolve : String → Option IPAddr) (fetch : String → FetchOutcome)
    (readability : Node → Option (String × Node)) (url : String) (timeout : Nat)
    (html : Node)
    (hgate : is_safe_url resolve url = true)
    (hfetch : fetch url = FetchOutcome.success html)
    (hread : readability html = none)
    (hempty : ∀ s ∈ nodeStrings (removeTags badTags html), pyStrip s = "") :
    fetch_article_text_run resolve fetch readability url timeout = (Except.ok "", 1) := by
  have hfall : fallbackExtract html = "" := fallbackExtract_eq_empty html hempty
  simp [fetch_article_text_run, hgate, hfetch, extractText, hread, hfall]

/-- C6 amended witness: an empty document under a raising structured
tier yields `Except.ok ""`. -/
theorem C6_amended_all_tiers_empty_gives_empty_string_witness :
    fetch_article_text_run pubResolve
        (fun _ => FetchOutcome.success (Node.elem "[document]" Forest.nil))
        noReadability ("http://example.com/api") 10 = (Except.ok "", 1) :=
  C6_amended_all_tiers_empty_gives_empty_string pubResolve
    (fun _ => FetchOutcome.success (Node.elem "[document]" Forest.nil))
    noReadability ("http://example.com/api") 10 (Node.elem "[document]" Forest.nil)
    (by decide) rfl rfl (by decide)

/-! ## C7 — fallback on exception only, not on empty output -/

/-- An `article` document whose paragraph extraction yields text. -/
def articleDoc : Node :=
  Node.elem "[document]" (toForest
    [Node.elem "article" (toForest
      [Node.elem "p" (toForest [Node.text "Hello world"])])])

/-- A structured tier that succeeds with an empty title and an empty
summary (readability can succeed while isolating no content). -/
def emptySummary : Node → Option (String × Node) :=
  fun _ => some ("", Node.elem "html" Forest.nil)

/-- C7 counterexample: the structured tier succeeds but produces empty
text, yet the pipeline returns that empty text as the result — the
paragraph tier, which would have produced `"Hello world"` from the same
markup, is not attempted.  Fallback is driven by exceptions only, not
by near-empty output. -/
theorem C7_counterexample_no_fallback_on_empty :
    fetch_article_text_run pubResolve (fun _ => FetchOutcome.success articleDoc)
        emptySummary ("http://example.com/api") 10 = (Except.ok "", 1)
    ∧ fallbackExtract articleDoc = "Hello world" :=
  ⟨rfl, rfl⟩

/-- C7 amended: the tiers degrade on exception, not on empty output.
When the structured tier succeeds, the result is a function of its
(title, summary) output alone — the paragraph tier is never consulted,
even for empty text; the paragraph tier runs exactly when the
structured tier raises; and the whole-document tier is used exactly
when the joined paragraph text is empty. -/
theorem C7_amended_fallback_on_exception_only :
    (∀ (read read2 : Node → Option (String × Node)) (html html2 : Node)
        (tc : String × Node), read html = some tc → read2 html2 = some tc →
        extractText read html = extractText read2 html2)
    ∧ (∀ (read : Node → Option (String × Node)) (html : Node),
        read html = none → extractText read html = fallbackExtract html)
    ∧ (∀ html : Node, parJoin (locateContainer (removeTags badTags html)) = "" →
        fallbackExtract html = getTextNewline (removeTags badTags html))
    ∧ (∀ html : Node, parJoin (locateContainer (removeTags badTags html)) ≠ "" →
        fallbackExtract html = parJoin (locateContainer (removeTags badTags html))) := by
  refine ⟨?_, ?_, ?_, ?_⟩
  · intro read read2 html html2 tc h h2
    simp [extractText, h, h2]
  · intro read html h
    simp [extractText, h]
  · intro html h
    simp [fallbackExtract, h]
  · intro html h
    simp [fallbackExtract, h]

/-! ## C8 — the paragraph-extraction fallback -/

/-- C8: when the gate passes, the fetch succeeds and the structured
tier raises, and the cleaned document's located container has nonempty
joined paragraph text, the pipeline returns exactly that: the document
with `script`/`style`/`nav`/`footer`/`header` removed, the first
`article` element (else first `main`, else the root) as container, and
its paragraphs' stripped texts, the empty ones dropped, joined by
newlines in document order. -/
theorem C8_paragraph_fallback (resolve : String → Option IPAddr)
    (fetch : String → FetchOutcome) (readability : Node → Option (String × Node))
    (url : String) (timeout : Nat) (html : Node)
    (hgate : is_safe_url resolve url = true)
    (hfetch : fetch url = FetchOutcome.success html)
    (hread : readability html = none)
    (hpar : parJoin (locateContainer (removeTags badTags html)) ≠ "") :
    fetch_article_text_run resolve fetch readability url timeout
      = (Except.ok (parJoin (locateContainer (removeTags badTags html))), 1) := by
  simp [fetch_article_text_run, hgate, hfetch, extractText, hread, fallbackExtract, hpar]

/-- A page with boilerplate to strip and two paragraphs inside
`article`, one of them nested and one whitespace-only. -/
def twoParDoc : Node :=
  Node.elem "[document]" (toForest
    [Node.elem "body" (toForest
      [ Node.elem "script" (toForest [Node.text "var x = 1"])
      , Node.elem "nav" (toForest [Node.elem "p" (toForest [Node.text "menu"])])
      , Node.elem "article" (toForest
          [ Node.elem "p" (toForest [Node.text "First"])
          , Node.elem "div" (toForest [Node.elem "p" (toForest [Node.text "Second"])])
          , Node.elem "p" (toForest [Node.text "   "]) ]) ]) ])

/-- C8 witness: on `twoParDoc` the fallback returns the two nonempty
paragraph texts in document order, newline-joined, with the `script`
and `nav` content gone. -/
theorem C8_paragraph_fallback_witness :
    fetch_article_text_run pubResolve (fun _ => FetchOutcome.success twoParDoc)
        noReadability ("http://example.com/api") 10
      = (Except.ok ("First\nSecond"), 1) := by
  rw [C8_paragraph_fallback pubResolve (fun _ => FetchOutcome.success twoParDoc)
    noReadability ("http://example.com/api") 10 twoParDoc
    (by decide) rfl rfl (by decide)]
  rfl
